import Mathlib

/-!
# Verification of the WebGL scene program (`src/Files/js/app.js`)

A shallow embedding of the rendering/animation core of the single-module
WebGL demo, together with theorems settling the specification claims.

Modelling conventions:
* JavaScript numbers are embedded as `ℚ` (the program only performs exact
  small-rational arithmetic on the quantities the claims mention; the opaque
  external matrix library is not re-implemented).
* The model-view matrix is represented abstractly.  For the render pipeline
  it is the *free composition sequence* `List MatOp` of the `mat4` calls
  applied to the base view matrix: each `mat4.rotate/translate/scale(mv, mv,
  v)` call right-composes one more operation, which is exactly the structure
  the claims about transform order and stack discipline speak about.  The
  numeric 4×4 arithmetic lives in the external `glMatrix` library, which the
  spec declares out of scope.
* Angles are recorded in units of π radians (the code computes
  `d / 180 * Math.PI` for a rotation of `d` degrees; the constant factor
  `Math.PI` is dropped, so a rotation of `d` degrees is recorded as
  `d / 180`).
* A JavaScript value that may be `undefined` is an `Option`.
* GL side effects (uniform uploads, texture loads, draw calls) are recorded
  as an emitted list of `GLOp` values.
* The `DEBUG` constant in the source is `false`; the embedding follows the
  non-debug branches.
-/

/-- The mutable GL drawing state manipulated by `pushMatrix`/`popMatrix`:
the current model-view matrix (`this.modelview`, possibly `undefined`,
hence `Option`) and the matrix pseudo-stack (`this.matrixStack`), whose
*end* is the top (JavaScript `Array.push`/`Array.pop` operate on the end). -/
structure GLState (α : Type) where
  modelview : Option α
  matrixStack : List α
deriving DecidableEq

/-- Source `inaccessible.pushMatrix`: `this.matrixStack.push(mat4.clone(this.modelview))`.
`mat4.clone` makes an independent copy, so in the value-semantics embedding
the current matrix is simply appended to the stack.  (Cloning an
`undefined` model-view would throw in JavaScript; that branch is never
reached by the program and is embedded as a no-op.) -/
def pushMatrix {α : Type} (s : GLState α) : GLState α :=
  match s.modelview with
  | some m => { s with matrixStack := s.matrixStack ++ [m] }
  | none => s

/-- Source `inaccessible.popMatrix`: `this.modelview = this.matrixStack.pop()`.
JavaScript `Array.pop` removes and returns the *last* element, and returns
`undefined` on an empty array — it does not throw.  Hence the new
model-view is `getLast?` (which is `none` on an empty stack) and the new
stack is `dropLast`. -/
def popMatrix {α : Type} (s : GLState α) : GLState α :=
  { modelview := s.matrixStack.getLast?, matrixStack := s.matrixStack.dropLast }

/-- An in-place mutation of the current model-view matrix, as performed by
the `mat4.rotate/translate/scale(this.modelview, this.modelview, v)` calls:
only `this.modelview` changes, the stack (holding independent clones) is
untouched. -/
def mutate {α : Type} (f : α → α) (s : GLState α) : GLState α :=
  { s with modelview := s.modelview.map f }

/-- One push followed by the (optional, possibly several) in-place
mutations of the current matrix that the program performs while the pushed
copy is saved. -/
def pushThenMutate {α : Type} (ms : List (α → α)) (s : GLState α) : GLState α :=
  ms.foldl (fun t f => mutate f t) (pushMatrix s)

/-- A sequence of `blocks.length` pushes, each optionally followed by
in-place mutations of the current matrix. -/
def runBlocks {α : Type} (blocks : List (List (α → α))) (s : GLState α) : GLState α :=
  blocks.foldl (fun t ms => pushThenMutate ms t) s

lemma mutate_foldl_state {α : Type} (ms : List (α → α)) (v : α) (st : List α) :
    ms.foldl (fun t f => mutate f t) ⟨some v, st⟩
      = ⟨some (ms.foldl (fun x f => f x) v), st⟩ := by
  induction ms generalizing v with
  | nil => rfl
  | cons f ms ih =>
      simpa [mutate] using ih (f v)

lemma popMatrix_iterate_runBlocks {α : Type} (blocks : List (List (α → α)))
    (v : α) (st : List α) :
    popMatrix^[blocks.length] (runBlocks blocks ⟨some v, st⟩) = ⟨some v, st⟩ := by
  induction blocks generalizing v st with
  | nil => rfl
  | cons ms bs ih =>
      have hblock : pushThenMutate ms (⟨some v, st⟩ : GLState α)
          = ⟨some (ms.foldl (fun x f => f x) v), st ++ [v]⟩ := by
        simpa [pushThenMutate, pushMatrix] using
          mutate_foldl_state ms v (st ++ [v])
      have hrun : runBlocks (ms :: bs) (⟨some v, st⟩ : GLState α)
          = runBlocks bs ⟨some (ms.foldl (fun x f => f x) v), st ++ [v]⟩ := by
        simp [runBlocks, hblock]
      calc popMatrix^[(ms :: bs).length] (runBlocks (ms :: bs) ⟨some v, st⟩)
          = popMatrix (popMatrix^[bs.length] (runBlocks (ms :: bs) ⟨some v, st⟩)) := by
            simpa [List.length_cons] using
              Function.iterate_succ_apply' popMatrix bs.length
                (runBlocks (ms :: bs) ⟨some v, st⟩)
        _ = popMatrix ⟨some (ms.foldl (fun x f => f x) v), st ++ [v]⟩ := by
            rw [hrun, ih]
        _ = ⟨some v, st⟩ := by
            simp [popMatrix]

/-- Claim C4 (counterexample): calling `popMatrix` with an empty matrix
stack does **not** fail with a `StackUnderflow` error.  JavaScript
`[].pop()` returns `undefined`, so the call succeeds silently and leaves
the current model-view matrix `undefined` (`none`) — exactly what the
claim says cannot happen. -/
theorem c4_counterexample :
    popMatrix (⟨some (1 : ℚ), []⟩ : GLState ℚ) = ⟨none, []⟩ := rfl

/-- Claim C4 (amended): calling the Transform Stack's pop operation when
the internal matrix stack is empty does not signal any error; it silently
replaces the current model-view matrix with `undefined` (an invalid
matrix) and leaves the stack empty. -/
theorem c4_amended {α : Type} (s : GLState α) (h : s.matrixStack = []) :
    popMatrix s = ⟨none, []⟩ := by
  simp [popMatrix, h]

theorem c4_amended_witness :
    (⟨some (1 : ℚ), []⟩ : GLState ℚ).matrixStack = [] ∧
      popMatrix (⟨some (1 : ℚ), ([] : List ℚ)⟩ : GLState ℚ) = ⟨none, []⟩ :=
  ⟨rfl, c4_amended (⟨some (1 : ℚ), []⟩ : GLState ℚ) rfl⟩

/-- Claim C5: for every `N`, every current model-view matrix `M`, and every
sequence of `N` pushes — each optionally followed by in-place mutations of
the current matrix — followed by `N` pops, on an initially empty stack, the
current model-view matrix afterwards equals `M` and the stack is empty
again.  `pushMatrix` stores an independent copy (`mat4.clone`), so the
later mutations cannot alter the stacked entries. -/
theorem c5_push_pop_roundtrip {α : Type} (blocks : List (List (α → α))) (M : α) :
    popMatrix^[blocks.length] (runBlocks blocks ⟨some M, []⟩) = ⟨some M, []⟩ :=
  popMatrix_iterate_runBlocks blocks M []

/-- The three coordinate axes of the per-instance rotation map. -/
inductive Axis : Type
  | x
  | y
  | z
deriving DecidableEq

/-- One `mat4` composition operation applied to the current model-view
matrix.  `rotate` is `mat4.rotate` about an arbitrary axis vector;
`rotateX/Y/Z` are the `mat4.rotateX/Y/Z` calls dispatched dynamically via
`` mat4[`rotate${key.toUpperCase()}`] ``.  Angles are in units of π radians
(see the file header). -/
inductive MatOp : Type
  | rotate (anglePi : ℚ) (axisVec : List ℚ)
  | rotateX (anglePi : ℚ)
  | rotateY (anglePi : ℚ)
  | rotateZ (anglePi : ℚ)
  | translate (v : List ℚ)
  | scale (v : List ℚ)
deriving DecidableEq

/-- Degrees expressed in units of π radians: the code computes
`d / 180 * Math.PI` for every rotation call. -/
def degPi (d : ℚ) : ℚ := d / 180

/-- The `rotateX`/`rotateY`/`rotateZ` operation selected by the axis key
(`` matrixFunctionName = `rotate${key.toUpperCase()}` ``). -/
def axisRotateOp : Axis → ℚ → MatOp
  | Axis.x, a => MatOp.rotateX a
  | Axis.y, a => MatOp.rotateY a
  | Axis.z, a => MatOp.rotateZ a

/-- Source pattern `mat4.<op>(this.modelview, this.modelview, v)`: compose one more
operation onto the current model-view matrix, in place. -/
def applyMat (op : MatOp) (s : GLState (List MatOp)) : GLState (List MatOp) :=
  mutate (fun m => m ++ [op]) s

-- The `inaccessible.Colors` enum entries used by the scene data
-- (GL color arrays in [0,1], with a trailing alpha component).

def WHITE : List ℚ := [1, 1, 1, 1]

def BLACK : List ℚ := [0, 0, 0, 1]

def GRAY : List ℚ := [1/10, 1/10, 1/10, 1]

def CHARCOAL : List ℚ := [7/20, 7/20, 7/20, 1]

def BROWN : List ℚ := [1/2, 3/10, 1/10, 1]

def YELLOW : List ℚ := [1/2, 1/2, 0, 1]

def GOLD : List ℚ := [1/2, 1/2, 1/5, 1]

/-- A value handed to `handleDefinitionOfUniform`: either a plain number or
a GL color/position array. -/
inductive UVal : Type
  | num (q : ℚ)
  | arr (l : List ℚ)
deriving DecidableEq

/-- One recorded GL side effect of the render pipeline.  `uniform3`,
`uniform4`, `uniform1f`, `uniform1i` record the uniform name, the optional
light index, and the value actually passed; `lightPosition` records the raw
light position and the model-view matrix handed to `vec4.transformMat4`
(the numeric multiply is external); `uniformModelview` records the matrix
uploaded just before a draw; `draw` records the `drawElements` call with
the template's shape kind and the wireframe flag. -/
inductive GLOp : Type
  | uniform1i (name : String) (idx : Option ℕ) (v : ℚ)
  | uniform1f (name : String) (idx : Option ℕ) (v : ℚ)
  | uniform3 (name : String) (idx : Option ℕ) (v : List ℚ)
  | uniform4 (name : String) (idx : Option ℕ) (v : List ℚ)
  | lightPosition (idx : ℕ) (pos : List ℚ) (mv : List MatOp)
  | useTexture (b : Bool)
  | textureLoad (addr : String) (placeholder : List ℚ)
  | uniformModelview (mv : List MatOp)
  | draw (shapeType : String) (wireframe : Bool)
deriving DecidableEq

/-- Source `inaccessible.handleDefinitionOfUniform(paramDataObject, paramProperty,
paramCounter)`, with the looked-up value passed directly.  Mirrors the
source exactly: with a light counter, an array value is passed whole to
`uniform4f` when the property is `position` and otherwise cut down with
`slice(0, 3)` (drop the trailing alpha) for `uniform3f`; a number goes to
`uniform1i` for `enabled`, else `uniform1f`.  Without a counter (material
path), an array value is passed whole to `uniform4fv` for `diffuseColor`
and otherwise cut with `slice(0, value.length - 1)` (`dropLast`) for
`uniform3f`; a number goes to `uniform1f`. -/
def handleDefinitionOfUniform (value : UVal) (prop : String) (counter : Option ℕ) : GLOp :=
  match counter with
  | some i =>
      match value with
      | UVal.arr v =>
          if prop = "position" then GLOp.uniform4 prop (some i) v
          else GLOp.uniform3 prop (some i) (v.take 3)
      | UVal.num q =>
          if prop = "enabled" then GLOp.uniform1i prop (some i) q
          else GLOp.uniform1f prop (some i) q
  | none =>
      match value with
      | UVal.arr v =>
          if prop = "diffuseColor" then GLOp.uniform4 prop none v
          else GLOp.uniform3 prop none v.dropLast
      | UVal.num q => GLOp.uniform1f prop none q

/-- Claim C9: every 4-component color array (RGB plus trailing alpha) bound
to a 3-component shader uniform — a light's `color`, or a material's
`specularColor`/`emissiveColor` — has exactly its first three components
passed to the uniform; the alpha component is dropped and the bound RGB
values equal the source RGB values (never averaged or premultiplied). -/
theorem c9_alpha_dropped (r g b a : ℚ) (i : ℕ) :
    handleDefinitionOfUniform (UVal.arr [r, g, b, a]) "color" (some i)
        = GLOp.uniform3 "color" (some i) [r, g, b] ∧
      handleDefinitionOfUniform (UVal.arr [r, g, b, a]) "specularColor" none
        = GLOp.uniform3 "specularColor" none [r, g, b] ∧
      handleDefinitionOfUniform (UVal.arr [r, g, b, a]) "emissiveColor" none
        = GLOp.uniform3 "emissiveColor" none [r, g, b] :=
  ⟨rfl, rfl, rfl⟩

/-- The `transformations` record of a scene object: `translate`, `scale`,
and the ordered rotation map `rotate` (a JavaScript object literal whose
keys enumerate in insertion order, embedded as a list of axis/rate pairs;
the rate is the per-frame angular rate in degrees). -/
structure Transformations where
  translate : List ℚ
  scale : List ℚ
  rotate : List (Axis × ℚ)
deriving DecidableEq

/-- One entry of `inaccessible.sceneObjectsData`.  The `materialUniforms`
sub-object is flattened into its two optional fields `specularColor` and
`specularExponent` (the code tests each for `!= null` separately). -/
structure SceneObject where
  shapeType : String
  shapeColor : List ℚ
  isWireFrame : Bool
  texture : Option String
  specularColor : Option (List ℚ)
  specularExponent : Option ℚ
  transformations : Transformations
deriving DecidableEq

def objSierpinski : SceneObject :=
  { shapeType := "Sierpinski", shapeColor := BROWN, isWireFrame := false,
    texture := none, specularColor := some WHITE, specularExponent := some 32,
    transformations :=
      { translate := [0, 0, -1], scale := [1/2, 1/2, 1/2],
        rotate := [(Axis.x, -9), (Axis.y, 2)] } }

def objIcosahedron : SceneObject :=
  { shapeType := "Icosahedron", shapeColor := BROWN, isWireFrame := false,
    texture := none, specularColor := some WHITE, specularExponent := some 16,
    transformations :=
      { translate := [1, 0, 0], scale := [3/10, 3/10, 3/10],
        rotate := [(Axis.x, 0), (Axis.y, 5), (Axis.z, -1)] } }

def objDodecahedron : SceneObject :=
  { shapeType := "Dodecahedron", shapeColor := BROWN, isWireFrame := false,
    texture := none, specularColor := some WHITE, specularExponent := some 16,
    transformations :=
      { translate := [-1, 0, 0], scale := [3/10, 3/10, 3/10],
        rotate := [(Axis.x, -2), (Axis.y, 4), (Axis.z, -2)] } }

def objOctahedron : SceneObject :=
  { shapeType := "Octahedron", shapeColor := BROWN, isWireFrame := false,
    texture := none, specularColor := some GRAY, specularExponent := some 16,
    transformations :=
      { translate := [0, 0, 1], scale := [3/10, 3/10, 3/10],
        rotate := [(Axis.x, 0), (Axis.y, 7)] } }

def objPyramid : SceneObject :=
  { shapeType := "Pyramid", shapeColor := GOLD, isWireFrame := false,
    texture := none, specularColor := some BLACK, specularExponent := some 16,
    transformations :=
      { translate := [3, 0, -3], scale := [1/2, 1/2, 1/2],
        rotate := [(Axis.x, -5), (Axis.y, 3)] } }

def objCylinder : SceneObject :=
  { shapeType := "Cylinder", shapeColor := GOLD, isWireFrame := true,
    texture := none, specularColor := some BLACK, specularExponent := some 16,
    transformations :=
      { translate := [3, 0, 3], scale := [3/10, 1/5, 3/10],
        rotate := [(Axis.x, -5), (Axis.y, 5)] } }

def objCube : SceneObject :=
  { shapeType := "Cube", shapeColor := GOLD, isWireFrame := false,
    texture := none, specularColor := some GRAY, specularExponent := some 32,
    transformations :=
      { translate := [-3, 0, 3], scale := [1/4, 1/4, 1/4],
        rotate := [(Axis.x, -8), (Axis.y, 5)] } }

def objTetrahedron : SceneObject :=
  { shapeType := "Tetrahedron", shapeColor := GOLD, isWireFrame := false,
    texture := none, specularColor := some GRAY, specularExponent := some 16,
    transformations :=
      { translate := [-3, 0, -3], scale := [3/10, 3/10, 3/10],
        rotate := [(Axis.x, -2), (Axis.y, 7)] } }

def objSphere : SceneObject :=
  { shapeType := "Sphere", shapeColor := BROWN, isWireFrame := false,
    texture := some "textures/jupiter.jpg", specularColor := some WHITE,
    specularExponent := some 32,
    transformations :=
      { translate := [0, -2, 2], scale := [3/10, 3/10, 3/10],
        rotate := [(Axis.x, 0), (Axis.y, 5)] } }

def objRing : SceneObject :=
  { shapeType := "Ring", shapeColor := BROWN, isWireFrame := false,
    texture := some "textures/sun.jpg", specularColor := some WHITE,
    specularExponent := some 32,
    transformations :=
      { translate := [0, 2, -2], scale := [1, 1, 1],
        rotate := [(Axis.x, -1), (Axis.y, 2), (Axis.z, 5)] } }

/-- Source array `inaccessible.sceneObjectsData`: the ten fixed shape
instances of the scene, in declaration order. -/
def sceneObjectsData : List SceneObject :=
  [objSierpinski, objIcosahedron, objDodecahedron, objOctahedron, objPyramid,
   objCylinder, objCube, objTetrahedron, objSphere, objRing]

/-- One entry of `inaccessible.lightSourceData`.  `lightsUniforms` and
`materialUniforms` are ordered key/value objects (embedded as association
lists in insertion order; a missing `materialUniforms` property is the
empty list, over which the code's `for..in` loops do nothing).  The light
`transformations` object dispatches `mat4[key]` dynamically over its keys,
embedded directly as the resulting `MatOp` list. -/
structure LightSource where
  lightText : String
  shapeType : Option String
  shapeColor : Option (List ℚ)
  texture : Option String
  materialUniforms : List (String × UVal)
  lightsUniforms : Option (List (String × UVal))
  transformations : Option (List MatOp)
deriving DecidableEq

/-- The sun: a positional light (`position.w = 1`) with a visible body
shape (a small textured sphere) and a dim yellow emissive color. -/
def sunLight : LightSource :=
  { lightText := "SunLight", shapeType := some "Sphere",
    shapeColor := some WHITE, texture := some "textures/sun.jpg",
    materialUniforms := [("emissiveColor", UVal.arr YELLOW)],
    lightsUniforms := some
      [("enabled", UVal.num 1), ("position", UVal.arr [0, 0, 0, 1]),
       ("color", UVal.arr WHITE), ("attenuation", UVal.num (1/4))],
    transformations := some
      [MatOp.translate [0, 0, 0], MatOp.scale [3/20, 3/20, 3/20]] }

/-- The viewpoint light: no body shape, no transformations, no material
overrides; only `enabled` and `color` uniforms. -/
def viewpointLight : LightSource :=
  { lightText := "ViewpointLight", shapeType := none, shapeColor := none,
    texture := none, materialUniforms := [],
    lightsUniforms := some [("enabled", UVal.num 1), ("color", UVal.arr CHARCOAL)],
    transformations := none }

/-- Source array `inaccessible.lightSourceData`: the two fixed lights. -/
def lightSourceData : List LightSource :=
  [sunLight, viewpointLight]

/-- Lookup in the `inaccessible.DefaultUniforms.MATERIAL` table, used by
`assembleLights` to restore a material uniform to its default after a
light's own shape is drawn (an absent key would be `undefined` in
JavaScript; it never occurs and is embedded as `num 0`). -/
def defaultMaterialValue : String → UVal
  | "diffuseColor" => UVal.arr BLACK
  | "specularColor" => UVal.arr GRAY
  | "emissiveColor" => UVal.arr BLACK
  | "specularExponent" => UVal.num 16
  | _ => UVal.num 0

/-- The fields of a config object (scene object or light) actually read by
`inaccessible.handleShapeTemplateRendering`. -/
structure RenderConfig where
  shapeType : String
  shapeColor : List ℚ
  isWireFrame : Bool
  texture : Option String
deriving DecidableEq

/-- View of a scene object as a rendering config. -/
def SceneObject.renderConfig (o : SceneObject) : RenderConfig :=
  { shapeType := o.shapeType, shapeColor := o.shapeColor,
    isWireFrame := o.isWireFrame, texture := o.texture }

/-- View of a light source as a rendering config.  A light has no
`isWireFrame` property; reading it yields `undefined`, which is falsy, so
the draw primitive is `TRIANGLES` (`false` here).  The function is only
called when `shapeType` and `shapeColor` are present. -/
def LightSource.renderConfig (l : LightSource) : RenderConfig :=
  { shapeType := l.shapeType.getD "", shapeColor := l.shapeColor.getD [],
    isWireFrame := false, texture := l.texture }

/-- Source `inaccessible.handleShapeTemplateRendering`, restricted to its
recorded GL effects: set the use-texture flag and either start the texture
load (with the temporary `WHITE` placeholder color) or upload the flat
shape color as the 4-component `diffuseColor` uniform; upload the current
model-view matrix; issue the indexed draw call on the config's shape
template with `LINE_LOOP` for wireframe configs and `TRIANGLES` otherwise.
(Buffer bindings and the normal-matrix upload carry no claim-relevant
data and are not recorded.  The model-view is always defined when this
runs; `getD []` is the unreachable `undefined` default.) -/
def handleShapeTemplateRendering (cfg : RenderConfig) (s : GLState (List MatOp)) :
    List GLOp :=
  (match cfg.texture with
   | some addr => [GLOp.useTexture true, GLOp.textureLoad addr WHITE]
   | none => [GLOp.useTexture false, GLOp.uniform4 "diffuseColor" none cfg.shapeColor]) ++
  [GLOp.uniformModelview (s.modelview.getD []), GLOp.draw cfg.shapeType cfg.isWireFrame]

/-- The raw `light.lightsUniforms.position` array handed to
`handleLightPositioning` (only ever read for the sun, where it exists). -/
def lightPositionOf (l : LightSource) : List ℚ :=
  match l.lightsUniforms with
  | some us =>
      match us.lookup "position" with
      | some (UVal.arr p) => p
      | _ => []
  | none => []

/-- The body of one iteration of the `assembleLights` loop for light number
`i`: push the matrix; apply the light's `lightsUniforms` via
`handleDefinitionOfUniform`; apply its `transformations` to the model-view;
apply its `materialUniforms` (emissive color); if the light is physically
in the scene (`shapeType` and `shapeColor` present) set its eye-space
position uniform from the current model-view and draw its body shape;
restore the touched material uniforms to their defaults; pop the matrix. -/
def assembleLightsStep (acc : GLState (List MatOp) × List GLOp)
    (il : ℕ × LightSource) : GLState (List MatOp) × List GLOp :=
  let i := il.1
  let light := il.2
  let s0 := pushMatrix acc.1
  let lightOps :=
    match light.lightsUniforms with
    | some us => us.map (fun kv => handleDefinitionOfUniform kv.2 kv.1 (some i))
    | none => []
  let s1 := (light.transformations.getD []).foldl (fun t op => applyMat op t) s0
  let matOps := light.materialUniforms.map
    (fun kv => handleDefinitionOfUniform kv.2 kv.1 none)
  let bodyOps :=
    if light.shapeType.isSome && light.shapeColor.isSome then
      GLOp.lightPosition i (lightPositionOf light) (s1.modelview.getD []) ::
        handleShapeTemplateRendering light.renderConfig s1
    else []
  let resetOps := light.materialUniforms.map
    (fun kv => handleDefinitionOfUniform (defaultMaterialValue kv.1) kv.1 none)
  (popMatrix s1, acc.2 ++ lightOps ++ matOps ++ bodyOps ++ resetOps)

/-- Source `inaccessible.assembleLights`: iterate over the light sources in
declaration order (with their indices), performing `assembleLightsStep` for
each. -/
def assembleLights (lights : List LightSource) (s : GLState (List MatOp)) :
    GLState (List MatOp) × List GLOp :=
  lights.enum.foldl assembleLightsStep (s, [])

/-- The body of one iteration of the `assembleScene` loop (non-debug path).
If the per-kind visibility flag (`templates[shapeType].isAnimated`) is
false the iteration `continue`s before touching anything.  Otherwise: push
the matrix; rotate about the vertical axis `[0,1,0]` by
`(-frameNumber)/180 * π` (the orbit); translate to the instance position;
for each declared axis of the rotation map rotate about it by
`(frameNumber * rate)/180 * π`; scale; upload the optional specular
overrides (a spread of the 4-component color into `uniform3f` passes its
first three components); render the shape; restore the specular defaults;
pop the matrix. -/
def assembleSceneStep (F : ℚ) (vis : String → Bool)
    (acc : GLState (List MatOp) × List GLOp) (current : SceneObject) :
    GLState (List MatOp) × List GLOp :=
  if vis current.shapeType = false then acc
  else
    let s1 := pushMatrix acc.1
    let s2 := applyMat (MatOp.rotate ((-F) / 180) [0, 1, 0]) s1
    let s3 := applyMat (MatOp.translate current.transformations.translate) s2
    let s4 := current.transformations.rotate.foldl
      (fun t p => applyMat (axisRotateOp p.1 ((F * p.2) / 180)) t) s3
    let s5 := applyMat (MatOp.scale current.transformations.scale) s4
    let specOps :=
      (match current.specularColor with
       | some c => [GLOp.uniform3 "specularColor" none (c.take 3)]
       | none => []) ++
      (match current.specularExponent with
       | some e => [GLOp.uniform1f "specularExponent" none e]
       | none => [])
    let shapeOps := handleShapeTemplateRendering current.renderConfig s5
    let resetOps :=
      (match current.specularColor with
       | some _ => [GLOp.uniform3 "specularColor" none (GRAY.take 3)]
       | none => []) ++
      (match current.specularExponent with
       | some _ => [GLOp.uniform1f "specularExponent" none 16]
       | none => [])
    (popMatrix s5, acc.2 ++ specOps ++ shapeOps ++ resetOps)

/-- Source `inaccessible.assembleScene` (non-debug path): iterate over the
scene objects in declaration order, performing `assembleSceneStep` for
each with the current frame number and the per-kind visibility flags. -/
def assembleScene (F : ℚ) (vis : String → Bool) (data : List SceneObject)
    (s : GLState (List MatOp)) : GLState (List MatOp) × List GLOp :=
  data.foldl (assembleSceneStep F vis) (s, [])

/-- Source `inaccessible.render` (non-debug path), restricted to its
model-view/draw structure: reset the model-view to the rotator's view
matrix (the base of the free composition sequence — the empty list) and
scale it by the current zoom factor `sceneScale` in all three dimensions;
then assemble the lights followed by the scene objects, concatenating the
recorded GL effects.  (Canvas clearing and the projection upload carry no
claim-relevant data.) -/
def render (F sceneScale : ℚ) (vis : String → Bool)
    (lights : List LightSource) (scene : List SceneObject)
    (st : GLState (List MatOp)) : GLState (List MatOp) × List GLOp :=
  let s0 : GLState (List MatOp) :=
    { modelview := some [MatOp.scale [sceneScale, sceneScale, sceneScale]],
      matrixStack := st.matrixStack }
  let r1 := assembleLights lights s0
  let r2 := assembleScene F vis scene r1.1
  (r2.1, r1.2 ++ r2.2)

/-- Boolean test whether a recorded GL effect is a draw call referencing
the template of kind `K`. -/
def isDrawOfKind (K : String) : GLOp → Bool
  | GLOp.draw t _ => t == K
  | _ => false

/-- Extract the uploaded model-view matrix from a recorded GL effect. -/
def modelviewOf : GLOp → Option (List MatOp)
  | GLOp.uniformModelview m => some m
  | _ => none

lemma foldl_fst_pres {β : Type} (f : GLState (List MatOp) × List GLOp → β →
      GLState (List MatOp) × List GLOp) (t : GLState (List MatOp))
    (hf : ∀ acc b, acc.1 = t → (f acc b).1 = t) (l : List β) :
    ∀ acc, acc.1 = t → (l.foldl f acc).1 = t := by
  induction l with
  | nil => intro acc h; exact h
  | cons b l ih => intro acc h; rw [List.foldl_cons]; exact ih _ (hf acc b h)

lemma applyMat_foldl_g {β : Type} (g : β → MatOp) (l : List β) (m : List MatOp)
    (st : List (List MatOp)) :
    l.foldl (fun t p => applyMat (g p) t) ⟨some m, st⟩ = ⟨some (m ++ l.map g), st⟩ := by
  induction l generalizing m with
  | nil => simp
  | cons p l ih =>
      rw [List.foldl_cons]
      have h1 : applyMat (g p) (⟨some m, st⟩ : GLState (List MatOp))
          = ⟨some (m ++ [g p]), st⟩ := rfl
      rw [h1, ih]
      simp

lemma pushMatrix_some {α : Type} (m : α) (st : List α) :
    pushMatrix (⟨some m, st⟩ : GLState α) = ⟨some m, st ++ [m]⟩ := rfl

lemma applyMat_some (op : MatOp) (m : List MatOp) (st : List (List MatOp)) :
    applyMat op ⟨some m, st⟩ = ⟨some (m ++ [op]), st⟩ := rfl

lemma popMatrix_concat {α : Type} (mv : Option α) (st : List α) (m : α) :
    popMatrix (⟨mv, st ++ [m]⟩ : GLState α) = ⟨some m, st⟩ := by
  simp [popMatrix]

lemma assembleLightsStep_fst (acc : GLState (List MatOp) × List GLOp)
    (il : ℕ × LightSource) (m : List MatOp) (st : List (List MatOp))
    (h : acc.1 = ⟨some m, st⟩) :
    (assembleLightsStep acc il).1 = ⟨some m, st⟩ := by
  unfold assembleLightsStep
  rw [h]
  simp only [pushMatrix_some, applyMat_foldl_g, applyMat_some, popMatrix_concat]

lemma assembleSceneStep_fst (F : ℚ) (vis : String → Bool)
    (acc : GLState (List MatOp) × List GLOp) (cur : SceneObject)
    (m : List MatOp) (st : List (List MatOp)) (h : acc.1 = ⟨some m, st⟩) :
    (assembleSceneStep F vis acc cur).1 = ⟨some m, st⟩ := by
  unfold assembleSceneStep
  split
  · exact h
  · rw [h]
    simp only [pushMatrix_some, applyMat_some, applyMat_foldl_g, popMatrix_concat]

lemma assembleLights_fst (lights : List LightSource) (m : List MatOp)
    (st : List (List MatOp)) :
    (assembleLights lights ⟨some m, st⟩).1 = ⟨some m, st⟩ := by
  unfold assembleLights
  exact foldl_fst_pres assembleLightsStep ⟨some m, st⟩
    (fun acc b h => assembleLightsStep_fst acc b m st h) lights.enum (⟨some m, st⟩, []) rfl

lemma assembleScene_fst (F : ℚ) (vis : String → Bool) (data : List SceneObject)
    (m : List MatOp) (st : List (List MatOp)) :
    (assembleScene F vis data ⟨some m, st⟩).1 = ⟨some m, st⟩ := by
  unfold assembleScene
  exact foldl_fst_pres (assembleSceneStep F vis) ⟨some m, st⟩
    (fun acc b h => assembleSceneStep_fst F vis acc b m st h) data (⟨some m, st⟩, []) rfl

lemma render_fst (F σ : ℚ) (vis : String → Bool) (lights : List LightSource)
    (scene : List SceneObject) (st : GLState (List MatOp)) :
    (render F σ vis lights scene st).1 = ⟨some [MatOp.scale [σ, σ, σ]], st.matrixStack⟩ := by
  show (assembleScene F vis scene
      (assembleLights lights ⟨some [MatOp.scale [σ, σ, σ]], st.matrixStack⟩).1).1 = _
  rw [assembleLights_fst]
  exact assembleScene_fst F vis scene [MatOp.scale [σ, σ, σ]] st.matrixStack

/-- Claim C6: the Transform Stack stays balanced throughout a full scene
render.  In both passes, each instance's iteration (a skipped instance
included — its `continue` happens before the push) restores the drawing
state it started from — in particular its push is undone by exactly one
pop before the next sibling is processed; a full `render` pass leaves the
matrix stack exactly as it found it, and therefore at depth 0 when it
starts at depth 0 (as it always does: the stack is created empty and every
pass preserves it). -/
theorem c6_stack_balanced :
    (∀ (F : ℚ) (vis : String → Bool) (cur : SceneObject) (m : List MatOp)
        (st : List (List MatOp)) (ops : List GLOp),
      (assembleSceneStep F vis (⟨some m, st⟩, ops) cur).1 = ⟨some m, st⟩) ∧
    (∀ (il : ℕ × LightSource) (m : List MatOp) (st : List (List MatOp))
        (ops : List GLOp),
      (assembleLightsStep (⟨some m, st⟩, ops) il).1 = ⟨some m, st⟩) ∧
    (∀ (F σ : ℚ) (vis : String → Bool) (lights : List LightSource)
        (scene : List SceneObject) (st : GLState (List MatOp)),
      (render F σ vis lights scene st).1.matrixStack = st.matrixStack) ∧
    (∀ (F σ : ℚ) (vis : String → Bool) (lights : List LightSource)
        (scene : List SceneObject) (mv : Option (List MatOp)),
      (render F σ vis lights scene ⟨mv, []⟩).1.matrixStack = []) := by
  refine ⟨?_, ?_, ?_, ?_⟩
  · intro F vis cur m st ops
    exact assembleSceneStep_fst F vis (⟨some m, st⟩, ops) cur m st rfl
  · intro il m st ops
    exact assembleLightsStep_fst (⟨some m, st⟩, ops) il m st rfl
  · intro F σ vis lights scene st
    rw [render_fst]
  · intro F σ vis lights scene mv
    rw [render_fst]

/-- The `mat4` operations composed onto the model-view matrix for one
visible scene object at frame `F`, in source order: the orbit about the
vertical axis, the instance translate, the declared per-axis spins, and
the scale. -/
def instanceMats (F : ℚ) (cur : SceneObject) : List MatOp :=
  MatOp.rotate ((-F) / 180) [0, 1, 0]
    :: MatOp.translate cur.transformations.translate
    :: (cur.transformations.rotate.map (fun p => axisRotateOp p.1 ((F * p.2) / 180))
        ++ [MatOp.scale cur.transformations.scale])

/-- The specular-override uniform uploads made before a scene object's
draw. -/
def specSetOps (cur : SceneObject) : List GLOp :=
  (match cur.specularColor with
   | some c => [GLOp.uniform3 "specularColor" none (c.take 3)]
   | none => []) ++
  (match cur.specularExponent with
   | some e => [GLOp.uniform1f "specularExponent" none e]
   | none => [])

/-- The specular-default restoring uniform uploads made after a scene
object's draw. -/
def specResetOps (cur : SceneObject) : List GLOp :=
  (match cur.specularColor with
   | some _ => [GLOp.uniform3 "specularColor" none (GRAY.take 3)]
   | none => []) ++
  (match cur.specularExponent with
   | some _ => [GLOp.uniform1f "specularExponent" none 16]
   | none => [])

lemma assembleSceneStep_hidden (F : ℚ) (vis : String → Bool)
    (acc : GLState (List MatOp) × List GLOp) (cur : SceneObject)
    (h : vis cur.shapeType = false) :
    assembleSceneStep F vis acc cur = acc := by
  unfold assembleSceneStep
  rw [if_pos h]

lemma assembleSceneStep_visible (F : ℚ) (vis : String → Bool) (cur : SceneObject)
    (m : List MatOp) (st : List (List MatOp)) (ops : List GLOp)
    (h : vis cur.shapeType = true) :
    assembleSceneStep F vis (⟨some m, st⟩, ops) cur
      = (⟨some m, st⟩,
         ops ++ (specSetOps cur
           ++ handleShapeTemplateRendering cur.renderConfig
               ⟨some (m ++ instanceMats F cur), st ++ [m]⟩
           ++ specResetOps cur)) := by
  unfold assembleSceneStep
  rw [if_neg (by simp [h])]
  simp only [pushMatrix_some, applyMat_some, applyMat_foldl_g, popMatrix_concat]
  simp [specSetOps, specResetOps, instanceMats]

lemma visibleObjOps_countP_ne (cur : SceneObject) (K : String)
    (s : GLState (List MatOp)) (h : cur.shapeType ≠ K) :
    ((specSetOps cur
        ++ handleShapeTemplateRendering cur.renderConfig s
        ++ specResetOps cur).countP (isDrawOfKind K)) = 0 := by
  have hbeq : (cur.shapeType == K) = false := beq_eq_false_iff_ne.mpr h
  rcases hc : cur.specularColor with _ | c <;>
    rcases he : cur.specularExponent with _ | e <;>
    rcases ht : cur.texture with _ | t <;>
    simp [specSetOps, specResetOps, handleShapeTemplateRendering,
      SceneObject.renderConfig, isDrawOfKind, hc, he, ht, hbeq,
      List.countP_append, List.countP_cons]

lemma assembleScene_foldl_countP (F : ℚ) (vis : String → Bool) (K : String)
    (hK : vis K = false) (data : List SceneObject) :
    ∀ (m : List MatOp) (st : List (List MatOp)) (ops : List GLOp),
      ((data.foldl (assembleSceneStep F vis) (⟨some m, st⟩, ops)).2).countP
          (isDrawOfKind K)
        = ops.countP (isDrawOfKind K) := by
  induction data with
  | nil => intro m st ops; rfl
  | cons cur rest ih =>
      intro m st ops
      rw [List.foldl_cons]
      by_cases hv : vis cur.shapeType = false
      · rw [assembleSceneStep_hidden F vis _ cur hv]
        exact ih m st ops
      · have hv' : vis cur.shapeType = true := by
          cases hvv : vis cur.shapeType with
          | false => exact absurd hvv hv
          | true => rfl
        have hne : cur.shapeType ≠ K := by
          intro he
          rw [he, hK] at hv'
          exact Bool.false_ne_true hv'
        rw [assembleSceneStep_visible F vis cur m st ops hv']
        rw [ih m st _]
        rw [List.countP_append]
        rw [visibleObjOps_countP_ne cur K _ hne]
        exact Nat.add_zero _

/-- Claim C1 (counterexample): with the per-kind visibility flag of the
`Sphere` kind set to false, a full render pass (`assembleLights` followed
by `assembleScene`) still issues one draw call referencing the `Sphere`
template — the sun light's body shape.  `assembleLights` never consults
`templates[...].isAnimated`, so the claim's "including the draw of a
light's body shape that shares kind K" is false. -/
theorem c1_counterexample :
    (fun k => !(k == "Sphere")) "Sphere" = false ∧
      ((render 0 1 (fun k => !(k == "Sphere")) lightSourceData sceneObjectsData
          ⟨some [], []⟩).2).countP (isDrawOfKind "Sphere") = 1 := by
  exact ⟨rfl, by decide⟩

/-- Claim C1 (amended): for every shape kind `K` whose per-kind visibility
flag is false, the shape pass (`assembleScene`) issues zero draw calls
referencing `K`'s template; but `assembleLights` ignores the per-kind
flag, so the body shape of a light sharing kind `K` (the sun's `Sphere`)
is still drawn — exactly once per light pass. -/
theorem c1_amended :
    (∀ (F : ℚ) (vis : String → Bool) (K : String) (data : List SceneObject)
        (m : List MatOp) (st : List (List MatOp)), vis K = false →
      ((assembleScene F vis data ⟨some m, st⟩).2).countP (isDrawOfKind K) = 0) ∧
    (∀ mv : List MatOp,
      ((assembleLights lightSourceData ⟨some mv, []⟩).2).countP
          (isDrawOfKind "Sphere") = 1) := by
  constructor
  · intro F vis K data m st hK
    exact assembleScene_foldl_countP F vis K hK data m st []
  · intro _
    rfl

theorem c1_amended_witness :
    (fun k => !(k == "Sphere")) "Sphere" = false ∧
      ((assembleScene 0 (fun k => !(k == "Sphere")) sceneObjectsData
          ⟨some [], []⟩).2).countP (isDrawOfKind "Sphere") = 0 ∧
      ((assembleLights lightSourceData ⟨some [], []⟩).2).countP
          (isDrawOfKind "Sphere") = 1 :=
  ⟨rfl,
   c1_amended.1 0 (fun k => !(k == "Sphere")) "Sphere" sceneObjectsData [] [] rfl,
   c1_amended.2 []⟩

/-- Claim C8: for every visible shape instance rendered at frame `F`, the
transforms are composed onto the current model-view matrix in this fixed
order: first the orbit — a rotation of `-F` degrees (recorded as
`degPi (-F)` in units of π radians) about the vertical axis `[0,1,0]`,
applied before the instance's translate — then the instance's translate,
then for each axis declared in its rotation map a rotation of
`F * rate` degrees about that axis (axes not declared contribute no
rotation), then the instance's scale.  The first conjunct says the matrix
uploaded for the instance's draw is exactly the prior matrix composed with
that operation sequence; the second says the instance is drawn exactly
once. -/
theorem c8_transform_order (F : ℚ) (vis : String → Bool) (cur : SceneObject)
    (m : List MatOp) (st : List (List MatOp)) (ops : List GLOp)
    (hvis : vis cur.shapeType = true) :
    ((assembleSceneStep F vis (⟨some m, st⟩, ops) cur).2).filterMap modelviewOf
        = ops.filterMap modelviewOf
          ++ [m ++ (MatOp.rotate (degPi (-F)) [0, 1, 0]
                :: MatOp.translate cur.transformations.translate
                :: (cur.transformations.rotate.map
                      (fun p => axisRotateOp p.1 (degPi (F * p.2)))
                    ++ [MatOp.scale cur.transformations.scale]))] ∧
      ((assembleSceneStep F vis (⟨some m, st⟩, ops) cur).2).countP
          (isDrawOfKind cur.shapeType)
        = ops.countP (isDrawOfKind cur.shapeType) + 1 := by
  rw [assembleSceneStep_visible F vis cur m st ops hvis]
  constructor
  · rcases hc : cur.specularColor with _ | c <;>
      rcases he : cur.specularExponent with _ | e <;>
      rcases ht : cur.texture with _ | t <;>
      simp [specSetOps, specResetOps, handleShapeTemplateRendering,
        SceneObject.renderConfig, instanceMats, modelviewOf, degPi,
        hc, he, ht, List.filterMap_append]
  · rcases hc : cur.specularColor with _ | c <;>
      rcases he : cur.specularExponent with _ | e <;>
      rcases ht : cur.texture with _ | t <;>
      simp [specSetOps, specResetOps, handleShapeTemplateRendering,
        SceneObject.renderConfig, isDrawOfKind, hc, he, ht,
        List.countP_append, List.countP_cons]

theorem c8_witness :
    (fun _ : String => true) objSierpinski.shapeType = true ∧
      ((assembleSceneStep 2 (fun _ => true) (⟨some [], []⟩, []) objSierpinski).2).filterMap
          modelviewOf
        = [[MatOp.rotate (degPi (-2)) [0, 1, 0], MatOp.translate [0, 0, -1],
            MatOp.rotateX (degPi (2 * -9)), MatOp.rotateY (degPi (2 * 2)),
            MatOp.scale [1/2, 1/2, 1/2]]] := by
  refine ⟨rfl, ?_⟩
  have h := (c8_transform_order 2 (fun _ => true) objSierpinski [] [] [] rfl).1
  simpa [objSierpinski, axisRotateOp] using h

/-- Source string `inaccessible.Text.START_BUTTON_ERROR`, shown via
`window.alert` when the start button is pressed while animating. -/
def START_BUTTON_ERROR : String := "Animation is already running."

/-- Source string `inaccessible.Text.STOP_BUTTON_ERROR`, shown via
`window.alert` when the stop button is pressed while stopped. -/
def STOP_BUTTON_ERROR : String := "Animation is not currently running."

/-- The command-level mutable state of the program (the object-globals set
up in `inaccessible.init`): the animation flag, the frame counter, the
zoom factor, the per-kind visibility flags (`templates[kind].isAnimated`,
a map over the shape-kind names), and the per-light enabled flags
(`lightSourceData[i].lightsUniforms.enabled`, the numeric 0/1 values the
code toggles with `^= 1`). -/
structure AppState where
  isSceneAnimated : Bool
  frameNumber : ℕ
  sceneScale : ℚ
  templatesAnimated : String → Bool
  lightsEnabled : ℕ → ℕ

/-- Observable effects of one command: how many render passes ran, how
many animation frames were requested (`window.requestAnimationFrame`),
and which `window.alert` texts were shown. -/
structure Effects where
  renders : ℕ
  scheduled : ℕ
  alerts : List String
deriving DecidableEq

def noEffects : Effects := ⟨0, 0, []⟩

def fxAdd (a b : Effects) : Effects :=
  ⟨a.renders + b.renders, a.scheduled + b.scheduled, a.alerts ++ b.alerts⟩

/-- Source `inaccessible.handleFrame`: if the scene is animated, increment
the frame counter by 1, render once, and request the next animation
frame; otherwise do nothing. -/
def handleFrame (s : AppState) : AppState × Effects :=
  if s.isSceneAnimated then ({ s with frameNumber := s.frameNumber + 1 }, ⟨1, 1, []⟩)
  else (s, noEffects)

/-- Source `inaccessible.handleAnimationStart`: if not animated, set the
flag and call `handleFrame` immediately (this runs the first frame
synchronously); otherwise alert `START_BUTTON_ERROR`. -/
def handleAnimationStart (s : AppState) : AppState × Effects :=
  if s.isSceneAnimated then (s, ⟨0, 0, [START_BUTTON_ERROR]⟩)
  else handleFrame { s with isSceneAnimated := true }

/-- Source `inaccessible.handleAnimationStop`: if animated, clear the
flag (scheduled callbacks then find the flag false and do nothing);
otherwise alert `STOP_BUTTON_ERROR`. -/
def handleAnimationStop (s : AppState) : AppState × Effects :=
  if s.isSceneAnimated then ({ s with isSceneAnimated := false }, noEffects)
  else (s, ⟨0, 0, [STOP_BUTTON_ERROR]⟩)

/-- Source `inaccessible.handleReset`: reset the rotator view (external
camera helper), zero the frame counter, set the zoom factor to 1, stop
animation, set every template's `isAnimated` flag to true (and re-check
its DOM checkbox), and render once.  The loop runs over `this.templates`
only — the light sources' `enabled` flags are not touched. -/
def handleReset (s : AppState) : AppState × Effects :=
  ({ s with
      isSceneAnimated := false, frameNumber := 0, sceneScale := 1,
      templatesAnimated := fun _ => true }, ⟨1, 0, []⟩)

/-- Source `inaccessible.handleSceneElementCheckboxChanges`: negate the
kind's `isAnimated` flag; render once if not animating. -/
def handleSceneElementCheckboxChanges (k : String) (s : AppState) :
    AppState × Effects :=
  ({ s with templatesAnimated :=
      fun kk => if kk = k then !(s.templatesAnimated kk) else s.templatesAnimated kk },
   if s.isSceneAnimated then noEffects else ⟨1, 0, []⟩)

/-- Source `inaccessible.handleLightSourceCheckboxChanges`: XOR the
light's numeric `enabled` flag with 1; render once if not animating. -/
def handleLightSourceCheckboxChanges (i : ℕ) (s : AppState) :
    AppState × Effects :=
  ({ s with lightsEnabled :=
      fun j => if j = i then (s.lightsEnabled j) ^^^ 1 else s.lightsEnabled j },
   if s.isSceneAnimated then noEffects else ⟨1, 0, []⟩)

/-- JavaScript `Math.sign` on a (rational-embedded) number. -/
def mathSign (q : ℚ) : ℚ :=
  if 0 < q then 1 else if q < 0 then -1 else 0

/-- The `wheel` listener installed in `inaccessible.init`:
`this.sceneScale += Math.sign(paramEvent.wheelDelta) / 10`, with no
clamping, then render once if not animating. -/
def handleWheel (delta : ℚ) (s : AppState) : AppState × Effects :=
  ({ s with sceneScale := s.sceneScale + mathSign delta / 10 },
   if s.isSceneAnimated then noEffects else ⟨1, 0, []⟩)

/-- The UI event surface: start/stop/reset buttons, a scheduled animation
tick (one `requestAnimationFrame` callback firing `handleFrame`), the two
checkbox families, and a wheel event carrying its `wheelDelta`. -/
inductive Cmd : Type
  | start
  | stop
  | reset
  | tick
  | toggleShape (k : String)
  | toggleLight (i : ℕ)
  | wheel (delta : ℚ)

/-- Dispatch one UI event to its source handler. -/
def stepCmd (s : AppState) : Cmd → AppState × Effects
  | Cmd.start => handleAnimationStart s
  | Cmd.stop => handleAnimationStop s
  | Cmd.reset => handleReset s
  | Cmd.tick => handleFrame s
  | Cmd.toggleShape k => handleSceneElementCheckboxChanges k s
  | Cmd.toggleLight i => handleLightSourceCheckboxChanges i s
  | Cmd.wheel d => handleWheel d s

/-- Run a sequence of UI events from a state, accumulating effects. -/
def runCmds : List Cmd → AppState → AppState × Effects
  | [], s => (s, noEffects)
  | c :: cs, s =>
      let r := stepCmd s c
      let rest := runCmds cs r.1
      (rest.1, fxAdd r.2 rest.2)

/-- The state established by `inaccessible.init`: not animating, frame
counter 0, zoom factor 1, every template visible, every light enabled. -/
def initState : AppState :=
  { isSceneAnimated := false, frameNumber := 0, sceneScale := 1,
    templatesAnimated := fun _ => true, lightsEnabled := fun _ => 1 }

/-- Claim C3: invoking start while animating alerts the already-running
message (`AlreadyRunningError`) and leaves the entire state — frame
counter and Running flag included — unchanged; invoking stop while
stopped alerts the not-running message (`NotRunningError`) and leaves the
state unchanged; in both error cases the effects show zero render passes
and zero frame-scheduling requests. -/
theorem c3_start_stop_errors :
    (∀ s : AppState, s.isSceneAnimated = true →
      handleAnimationStart s = (s, ⟨0, 0, [START_BUTTON_ERROR]⟩)) ∧
    (∀ s : AppState, s.isSceneAnimated = false →
      handleAnimationStop s = (s, ⟨0, 0, [STOP_BUTTON_ERROR]⟩)) := by
  constructor
  · intro s h
    simp [handleAnimationStart, h]
  · intro s h
    simp [handleAnimationStop, h]

theorem c3_witness :
    ({ initState with isSceneAnimated := true } : AppState).isSceneAnimated = true ∧
      handleAnimationStart { initState with isSceneAnimated := true }
        = ({ initState with isSceneAnimated := true }, ⟨0, 0, [START_BUTTON_ERROR]⟩) ∧
      initState.isSceneAnimated = false ∧
      handleAnimationStop initState = (initState, ⟨0, 0, [STOP_BUTTON_ERROR]⟩) :=
  ⟨rfl, c3_start_stop_errors.1 { initState with isSceneAnimated := true } rfl,
   rfl, c3_start_stop_errors.2 initState rfl⟩

/-- Claim C2 (counterexample): reset does **not** restore every
light-enabled flag to true.  From the initial state, toggling light 0 off
and then resetting leaves light 0's `enabled` flag at 0: `handleReset`
loops over `this.templates` (the shape kinds) only and never touches
`lightSourceData[..].lightsUniforms.enabled`. -/
theorem c2_counterexample :
    (runCmds [Cmd.toggleLight 0, Cmd.reset] initState).1.lightsEnabled 0 = 0 ∧
      ¬ (runCmds [Cmd.toggleLight 0, Cmd.reset] initState).1.lightsEnabled 0 = 1 := by
  constructor
  · rfl
  · decide

/-- Claim C2 (amended): for every prior state, Reset leaves the system
Stopped with frame counter 0 and zoom factor 1, sets every per-kind
visibility flag to true, and performs exactly one immediate render pass
without starting animation (one render, zero frame requests, no alerts);
the light-enabled flags, however, are left exactly as they were — they
are not restored to true. -/
theorem c2_amended (s : AppState) :
    (handleReset s).1.isSceneAnimated = false ∧
      (handleReset s).1.frameNumber = 0 ∧
      (handleReset s).1.sceneScale = 1 ∧
      (∀ k, (handleReset s).1.templatesAnimated k = true) ∧
      (handleReset s).1.lightsEnabled = s.lightsEnabled ∧
      (handleReset s).2 = ⟨1, 0, []⟩ :=
  ⟨rfl, rfl, rfl, fun _ => rfl, rfl, rfl⟩

/-- Claim C7 (counterexample): starting from frame counter 0, the
sequence start, then 10 scheduled ticks, then stop leaves the frame
counter at 11, not 10: `handleAnimationStart` itself calls `handleFrame`
synchronously, running the first frame before any scheduled tick. -/
theorem c7_counterexample :
    (runCmds (Cmd.start :: (List.replicate 10 Cmd.tick ++ [Cmd.stop]))
        initState).1.frameNumber = 11 ∧
      (runCmds (Cmd.start :: (List.replicate 10 Cmd.tick ++ [Cmd.stop]))
        initState).1.isSceneAnimated = false := by
  constructor <;> rfl

/-- Claim C7 (amended): while the Frame Driver is Running, each scheduled
tick increments the frame counter by exactly 1 and triggers exactly one
full render pass before requesting the next tick; but the start command
itself immediately executes one frame, so starting from frame counter 0,
the sequence start, then 10 scheduled ticks, then stop leaves the frame
counter equal to 11 (11 frames rendered in total) and the state Stopped. -/
theorem c7_amended :
    (∀ s : AppState, s.isSceneAnimated = true →
      handleFrame s = ({ s with frameNumber := s.frameNumber + 1 }, ⟨1, 1, []⟩)) ∧
      (runCmds (Cmd.start :: (List.replicate 10 Cmd.tick ++ [Cmd.stop]))
        initState).1.frameNumber = 11 ∧
      (runCmds (Cmd.start :: (List.replicate 10 Cmd.tick ++ [Cmd.stop]))
        initState).1.isSceneAnimated = false ∧
      (runCmds (Cmd.start :: (List.replicate 10 Cmd.tick ++ [Cmd.stop]))
        initState).2.renders = 11 := by
  refine ⟨?_, rfl, rfl, rfl⟩
  intro s h
  simp [handleFrame, h]

theorem c7_witness :
    ({ initState with isSceneAnimated := true } : AppState).isSceneAnimated = true ∧
      handleFrame { initState with isSceneAnimated := true }
        = ({ initState with isSceneAnimated := true, frameNumber := 1 }, ⟨1, 1, []⟩) := by
  refine ⟨rfl, ?_⟩
  have h := c7_amended.1 { initState with isSceneAnimated := true } rfl
  simpa [initState] using h

lemma runCmds_wheel_scale (ds : List ℚ) :
    ∀ s : AppState, (∀ d ∈ ds, d ≠ 0) →
      (runCmds (ds.map Cmd.wheel) s).1.sceneScale
        = s.sceneScale + ((ds.countP (fun d => decide (0 < d)) : ℚ)
            - (ds.countP (fun d => decide (d < 0)) : ℚ)) / 10 := by
  induction ds with
  | nil =>
      intro s _
      simp [runCmds]
  | cons d ds ih =>
      intro s h
      have hd : d ≠ 0 := h d (List.mem_cons_self d ds)
      have hds : ∀ x ∈ ds, x ≠ 0 := fun x hx => h x (List.mem_cons_of_mem d hx)
      have hstep : (runCmds ((d :: ds).map Cmd.wheel) s).1
          = (runCmds (ds.map Cmd.wheel)
              { s with sceneScale := s.sceneScale + mathSign d / 10 }).1 := by
        simp [runCmds, stepCmd, handleWheel]
      rw [hstep, ih _ hds]
      rcases lt_trichotomy d 0 with hneg | hzero | hpos
      · have h1 : mathSign d = -1 := by
          simp [mathSign, lt_asymm hneg, hneg]
        have h2 : (d :: ds).countP (fun x => decide (0 < x))
            = ds.countP (fun x => decide (0 < x)) := by
          simp [List.countP_cons, lt_asymm hneg]
        have h3 : (d :: ds).countP (fun x => decide (x < 0))
            = ds.countP (fun x => decide (x < 0)) + 1 := by
          simp [List.countP_cons, hneg]
        rw [h1, h2, h3]
        push_cast
        ring
      · exact absurd hzero hd
      · have h1 : mathSign d = 1 := by
          simp [mathSign, hpos]
        have h2 : (d :: ds).countP (fun x => decide (0 < x))
            = ds.countP (fun x => decide (0 < x)) + 1 := by
          simp [List.countP_cons, hpos]
        have h3 : (d :: ds).countP (fun x => decide (x < 0))
            = ds.countP (fun x => decide (x < 0)) := by
          simp [List.countP_cons, lt_asymm hpos]
        rw [h1, h2, h3]
        push_cast
        ring

/-- Claim C10: the zoom factor `sceneScale` is not clamped.  Each wheel
event adds `Math.sign(wheelDelta) / 10`, so after any sequence of wheel
events with nonzero deltas — `u` zoom-in (positive) and `d` zoom-out
(negative) — the zoom factor equals its prior value plus `(u - d)/10`
(hence `1 + (u - d)/10` since the last reset, where it is 1).  In
particular 10 consecutive zoom-out events from the initial state bring it
to exactly 0 and an 11th makes it negative, and a render pass performed
with zoom factor 0 composes `scale [0,0,0]` as the base of the model-view
matrix of every draw it issues. -/
theorem c10_zoom_unclamped :
    (∀ (ds : List ℚ) (s : AppState), (∀ d ∈ ds, d ≠ 0) →
      (runCmds (ds.map Cmd.wheel) s).1.sceneScale
        = s.sceneScale + ((ds.countP (fun d => decide (0 < d)) : ℚ)
            - (ds.countP (fun d => decide (d < 0)) : ℚ)) / 10) ∧
      (runCmds ((List.replicate 10 (-120 : ℚ)).map Cmd.wheel) initState).1.sceneScale
        = 0 ∧
      (runCmds ((List.replicate 11 (-120 : ℚ)).map Cmd.wheel) initState).1.sceneScale
        = -1/10 ∧
      (((render 0 0 (fun _ => true) lightSourceData sceneObjectsData
          ⟨some [], []⟩).2).filterMap modelviewOf).all
          (fun mv => decide (mv.take 1 = [MatOp.scale [0, 0, 0]])) = true := by
  have hsign : mathSign (-120 : ℚ) = -1 := by norm_num [mathSign]
  refine ⟨fun ds s h => runCmds_wheel_scale ds s h, ?_, ?_, by decide⟩
  · simp [runCmds, stepCmd, handleWheel, hsign, initState, List.replicate]
    norm_num
  · simp [runCmds, stepCmd, handleWheel, hsign, initState, List.replicate]
    norm_num

theorem c10_witness :
    (∀ d ∈ [(-120 : ℚ), 120, -240], d ≠ 0) ∧
      (runCmds ([(-120 : ℚ), 120, -240].map Cmd.wheel) initState).1.sceneScale
        = 9/10 := by
  refine ⟨by decide, ?_⟩
  have h := c10_zoom_unclamped.1 [(-120 : ℚ), 120, -240] initState (by decide)
  rw [h]
  norm_num [initState]
